import Mathlib

/-!
Verification of the gateway server (`server.py`) of the mcp-gateway repository.

The file gives a shallow embedding of the server's tools.  Each tool is an
`async` Python function of shape "issue one HTTP GET, then transform"; we model
the single outbound HTTP interaction by an explicit `FetchOutcome` argument and
embed the rest of the body as a pure function.  Numeric metric values (Python
floats) are modelled by `PVal`: exact rationals for finite values plus the
`nan`/`inf`/`-inf` tokens of the exposition grammar (IEEE rounding of decimal
literals is not modelled; every value exercised here is a small integer).
-/

namespace MCPGateway

/-- Python float values as they occur in Prometheus metric samples. -/
inductive PVal where
  | finite (q : ℚ)
  | nan
  | inf
  | ninf
  deriving DecidableEq, Repr

/-- IEEE-style strict less-than on `PVal` (`nan` is incomparable). -/
def PVal.lt : PVal → PVal → Bool
  | .nan, _ => false
  | _, .nan => false
  | .ninf, .ninf => false
  | .ninf, _ => true
  | _, .ninf => false
  | .finite a, .finite b => decide (a < b)
  | .finite _, .inf => true
  | .inf, _ => false

/-- Python `value >= min_level` for a float `value` and int `min_level`. -/
def PVal.geInt : PVal → Int → Bool
  | .nan, _ => false
  | .inf, _ => true
  | .ninf, _ => false
  | .finite q, n => decide ((n : ℚ) ≤ q)

/-- Total order used to model `list.sort(key=..., reverse=True)`.  On values
that are pairwise comparable (no `nan`) it coincides with the IEEE `≤`, which
is the only case in which Python's sort has specified behaviour; the model
totalises the order by placing `nan` below everything. -/
def PVal.ble : PVal → PVal → Bool
  | .nan, _ => true
  | _, .nan => false
  | .ninf, _ => true
  | _, .ninf => false
  | .finite a, .finite b => decide (a ≤ b)
  | .finite _, .inf => true
  | .inf, .inf => true
  | .inf, .finite _ => false

/-- Python `float(x) / 1000`, used for exposition timestamps. -/
def PVal.div1000 : PVal → PVal
  | .finite q => .finite (mkRat q.num (q.den * 1000))
  | x => x

/-- One parsed exposition sample (`prometheus_client` `Sample`): sample name,
label dict, float value, optional timestamp. -/
structure Sample where
  name : String
  labels : List (String × String)
  value : PVal
  timestamp : Option PVal
  deriving DecidableEq, Repr

/-- One parsed metric family (`prometheus_client` `Metric`). -/
structure Metric where
  name : String
  documentation : String
  typ : String
  samples : List Sample
  deriving DecidableEq, Repr

/-- Python `dict.get(k)` on a label mapping (`None` when the key is absent). -/
def labelsGet (d : List (String × String)) (k : String) : Option String :=
  (d.find? (fun p => p.1 == k)).map (fun p => p.2)

/-- Python `dict[k] = v`: overwrite in place, else append (insertion order). -/
def dictSet (d : List (String × String)) (k v : String) : List (String × String) :=
  if d.any (fun p => p.1 == k) then d.map (fun p => if p.1 == k then (k, v) else p)
  else d ++ [(k, v)]

/-- The uniform `{"ok": ..., "data": ..., "error": ...}` dictionary returned by
every tool.  A key that the Python code leaves out of the literal is `none`. -/
structure Envelope (α : Type) where
  ok : Bool
  data : Option α
  error : Option String
  deriving Repr

/-- Builds `{"ok": True, "data": d}`. -/
def Envelope.success {α : Type} (d : α) : Envelope α := ⟨true, some d, none⟩

/-- Builds `{"ok": False, "error": msg}`. -/
def Envelope.failure {α : Type} (msg : String) : Envelope α := ⟨false, none, some msg⟩

/-- JSON values as returned by `resp.json()`. -/
inductive Json where
  | null
  | bool (b : Bool)
  | num (q : ℚ)
  | str (s : String)
  | arr (elems : List Json)
  | obj (fields : List (String × Json))
  deriving Repr

/-- Python `full.get(k)` on a JSON object (`None` → `Json.null` when absent). -/
def jsonGet (j : Json) (k : String) : Json :=
  match j with
  | .obj fields =>
    match fields.find? (fun p => p.1 == k) with
    | some p => p.2
    | none => .null
  | _ => .null

def Json.isObj : Json → Bool
  | .obj _ => true
  | _ => false

/-- An upstream HTTP response: status code, `resp.text`, and the outcome of
`resp.json()` (`.error` models a JSON decode exception). -/
structure HttpResponse where
  status : Nat
  text : String
  jsonBody : Except String Json

/-- Outcome of the one outbound `client.get(...)`: either the request itself
raised (timeout, connection error, ...) or a response arrived. -/
inductive FetchOutcome where
  | exn (msg : String)
  | resp (r : HttpResponse)

/-- httpx `Response.is_success`: 2xx. -/
def is2xx (s : Nat) : Bool := decide (200 ≤ s) && decide (s < 300)

/-- Models `str(e)` of the `HTTPStatusError` raised by `resp.raise_for_status()`
on a non-2xx status.  The exact library text is irrelevant to the claims; only
that it is some message determined by the status. -/
def httpStatusErrMsg (s : Nat) : String := "HTTP status error " ++ toString s

/-- Models `str(e)` of the `AttributeError` raised by `full.get(...)` when the
decoded JSON body is not a dict. -/
def attrErrMsg : String := "AttributeError: object has no attribute get"

/-- Common body of the pass-through proxy tools: 404 is answered before
`raise_for_status`, any other non-2xx status raises and is wrapped, a JSON
decode failure raises and is wrapped, otherwise the body is passed through. -/
def proxyGet (notFoundMsg : String) (wrapMsg : String → String) :
    FetchOutcome → Envelope Json
  | .exn e => .failure (wrapMsg e)
  | .resp r =>
    if r.status == 404 then .failure notFoundMsg
    else if !is2xx r.status then .failure (wrapMsg (httpStatusErrMsg r.status))
    else
      match r.jsonBody with
      | .error e => .failure (wrapMsg e)
      | .ok v => .success v

/-- MCP TOOL A — `get_p4_stream_summary`. -/
def get_p4_stream_summary (stream : String) (out : FetchOutcome) : Envelope Json :=
  proxyGet ("Stream not found in P4StreamDiff: " ++ stream)
    (fun e => "stream-summary call failed: " ++ e) out

/-- MCP TOOL B — `check_stream_changelists` (the changelist numbers only feed
the query string, not the envelope logic). -/
def check_stream_changelists (stream : String) (changelists : List Int)
    (out : FetchOutcome) : Envelope Json :=
  let _ := changelists
  proxyGet ("Stream not found in P4StreamDiff: " ++ stream)
    (fun e => "stream-changelists-membership call failed: " ++ e) out

/-- MCP TOOL C — `get_stream_changelists`. -/
def get_stream_changelists (stream : String) (out : FetchOutcome) : Envelope Json :=
  proxyGet ("Stream not found in P4StreamDiff: " ++ stream)
    (fun e => "stream-changelists call failed: " ++ e) out

/-- MCP TOOL D — `get_stream_files`. -/
def get_stream_files (stream : String) (out : FetchOutcome) : Envelope Json :=
  proxyGet ("Stream not found in P4StreamDiff: " ++ stream)
    (fun e => "stream-files call failed: " ++ e) out

/-- MCP TOOL E — `get_changelist_details`. -/
def get_changelist_details (changelist : Int) (out : FetchOutcome) : Envelope Json :=
  proxyGet ("Changelist not found in P4StreamDiff: " ++ toString changelist)
    (fun e => "changelist-details call failed: " ++ e) out

/-- MCP TOOL F — `find_changelist_streams`. -/
def find_changelist_streams (changelists : List Int) (out : FetchOutcome) : Envelope Json :=
  let _ := changelists
  proxyGet ("Endpoint /api/changelists-streams/ not found on P4Diff")
    (fun e => "changelists-streams call failed: " ++ e) out

/-- MCP TOOL G — `get_sprint_metrics`. -/
def get_sprint_metrics (sprint_name : String) (out : FetchOutcome) : Envelope Json :=
  proxyGet ("Sprint not found in SprintInsights: " ++ sprint_name)
    (fun e => "SprintInsights call failed: " ++ e) out

/-- MCP TOOL H — `get_active_jira_sprints`. -/
def get_active_jira_sprints (out : FetchOutcome) : Envelope Json :=
  proxyGet ("active-sprints endpoint not found on Jira tasks service")
    (fun e => "active-sprints call failed: " ++ e) out

/-- MCP TOOL I — `get_jira_sprint_tasks` (`status_filter` only feeds the query
string). -/
def get_jira_sprint_tasks (sprint_id status_filter : String)
    (out : FetchOutcome) : Envelope Json :=
  let _ := status_filter
  proxyGet ("Sprint " ++ sprint_id ++ " not found in Jira tasks service")
    (fun e => "sprint-tasks call failed: " ++ e) out

/-- Tool `get_user_sprint_tasks`. -/
def get_user_sprint_tasks (sprint_id user_name status_filter : String)
    (out : FetchOutcome) : Envelope Json :=
  let _ := status_filter
  proxyGet ("Sprint " ++ sprint_id ++ " or user " ++ user_name ++
      " not found in Jira tasks service")
    (fun e => "sprint-user-tasks call failed: " ++ e) out

/-- The fixed ten-field summary dict built by `get_user_sprint_hours` from the
upstream body (`full.get(...)`, missing keys become null), in source order. -/
def sprintHoursSummary (full : Json) : Json :=
  Json.obj
    [("sprint_id", jsonGet full ("sprint_id")),
     ("sprint_name", jsonGet full ("sprint_name")),
     ("user", jsonGet full ("user")),
     ("total_tasks", jsonGet full ("total_tasks")),
     ("completed_tasks", jsonGet full ("completed_tasks")),
     ("open_tasks", jsonGet full ("open_tasks")),
     ("unestimated_tasks", jsonGet full ("unestimated_tasks")),
     ("total_estimated_hours", jsonGet full ("total_estimated_hours")),
     ("completed_estimated_hours", jsonGet full ("completed_estimated_hours")),
     ("open_estimated_hours", jsonGet full ("open_estimated_hours"))]

/-- Tool `get_user_sprint_hours`: like a proxy but the 2xx body is projected onto a
fixed summary dict; `full.get` on a non-dict body raises `AttributeError`,
which the enclosing `except` wraps. -/
def get_user_sprint_hours (sprint_id user_name : String)
    (out : FetchOutcome) : Envelope Json :=
  let wrapMsg := fun e => "sprint-user-tasks (hours view) call failed: " ++ e
  match out with
  | .exn e => .failure (wrapMsg e)
  | .resp r =>
    if r.status == 404 then
      .failure ("Sprint " ++ sprint_id ++ " or user " ++ user_name ++
        " not found in Jira tasks service")
    else if !is2xx r.status then .failure (wrapMsg (httpStatusErrMsg r.status))
    else
      match r.jsonBody with
      | .error e => .failure (wrapMsg e)
      | .ok full =>
        if full.isObj then .success (sprintHoursSummary full)
        else .failure (wrapMsg attrErrMsg)

/-- Tool `search_jira_tasks` (the optional filters only feed the query string). -/
def search_jira_tasks (query sprint_id user_name status_filter : String)
    (out : FetchOutcome) : Envelope Json :=
  let _ := (query, sprint_id, user_name, status_filter)
  proxyGet ("search-tasks endpoint not found on Jira tasks service")
    (fun e => "search-tasks call failed: " ++ e) out

/-- Common body of the two raw-metrics tools: like a proxy but the 2xx body is
`resp.text`, not JSON. -/
def rawMetricsGet (notFoundMsg : String) (wrapMsg : String → String) :
    FetchOutcome → Envelope String
  | .exn e => .failure (wrapMsg e)
  | .resp r =>
    if r.status == 404 then .failure notFoundMsg
    else if !is2xx r.status then .failure (wrapMsg (httpStatusErrMsg r.status))
    else .success r.text

/-- Tool `get_skill_matrix_metrics_raw`. -/
def get_skill_matrix_metrics_raw (out : FetchOutcome) : Envelope String :=
  rawMetricsGet ("Skill Matrix /metrics endpoint not found")
    (fun e => "Skill Matrix /metrics call failed: " ++ e) out

/-- Tool `get_swarm_metrics_raw`. -/
def get_swarm_metrics_raw (out : FetchOutcome) : Envelope String :=
  rawMetricsGet ("Swarm /metrics endpoint not found")
    (fun e => "Swarm metrics call failed: " ++ e) out

/-- Tool `get_swarm_group_history`: a proxy with an extra 400 branch that echoes
`resp.text`. -/
def get_swarm_group_history (group start_date end_date : String)
    (out : FetchOutcome) : Envelope Json :=
  let _ := (group, start_date, end_date)
  let wrapMsg := fun e => "Swarm date-range metrics call failed: " ++ e
  match out with
  | .exn e => .failure (wrapMsg e)
  | .resp r =>
    if r.status == 400 then .failure ("Bad request to Swarm app: " ++ r.text)
    else if r.status == 404 then
      .failure ("group-metrics-range endpoint not found on Swarm app")
    else if !is2xx r.status then .failure (wrapMsg (httpStatusErrMsg r.status))
    else
      match r.jsonBody with
      | .error e => .failure (wrapMsg e)
      | .ok v => .success v

/-! ### Python string helpers

The tools parse the fetched exposition text with
`prometheus_client.parser.text_string_to_metric_families`.  That library is a
dependency of the repository, so its text parser is embedded below, following
the structure of `prometheus_client/parser.py` (`_parse_labels`,
`_parse_value_and_timestamp`, `_parse_sample`, `text_fd_to_metric_families`)
and `prometheus_client/metrics_core.py` (`Metric.__init__`).  Exceptions
raised by the library (`ValueError`, `IndexError`) are modelled by
`Except String`; their message texts are modelled, not copied.  Strings are
manipulated as `List Char`.
-/

/-- ASCII whitespace stripped by Python `str.strip()` (Unicode spaces are not
modelled; the exposition format is ASCII). -/
def pyWhitespaceChar (c : Char) : Bool :=
  c == ' ' || c == '\t' || c == '\n' || c == '\r' || c == '\x0b' || c == '\x0c'

def pyLStrip (cs : List Char) : List Char := cs.dropWhile pyWhitespaceChar

def pyRStrip (cs : List Char) : List Char :=
  (cs.reverse.dropWhile pyWhitespaceChar).reverse

/-- Python `str.strip()`. -/
def pyStrip (cs : List Char) : List Char := pyRStrip (pyLStrip cs)

/-- Python `str.strip()` on `String`. -/
def pyStripS (s : String) : String := String.mk (pyStrip s.data)

/-- Split on a separator character, keeping empty pieces (Python
`str.split(sep)` for a one-character `sep`). -/
def splitOnChar (sep : Char) : List Char → List (List Char)
  | [] => [[]]
  | c :: cs =>
    match splitOnChar sep cs with
    | [] => [[]]
    | l :: ls => if c == sep then [] :: l :: ls else (c :: l) :: ls

/-- One step of Python `str.split(None, maxsplit)`; `fuel` only bounds the
recursion and is always given as more than the input length. -/
def pySplitNoneFuel : Nat → Nat → List Char → List (List Char)
  | 0, _, _ => []
  | fuel + 1, maxsplit, cs =>
    let rest := cs.dropWhile pyWhitespaceChar
    if rest.isEmpty then []
    else if maxsplit == 0 then [rest]
    else
      let tok := rest.takeWhile (fun c => !pyWhitespaceChar c)
      let rem := rest.dropWhile (fun c => !pyWhitespaceChar c)
      tok :: pySplitNoneFuel fuel (maxsplit - 1) rem

/-- Python `str.split(None, maxsplit)`. -/
def pySplitNone (maxsplit : Nat) (cs : List Char) : List (List Char) :=
  pySplitNoneFuel (cs.length + 1) maxsplit cs

/-- First index of `c` in `cs` at or after `start` (Python `str.index`/`find`). -/
def charIndexFrom (cs : List Char) (c : Char) (start : Nat) : Option Nat :=
  match (cs.drop start).findIdx? (fun d => d == c) with
  | some k => some (start + k)
  | none => none

/-- Last index of `c` in `cs` (Python `str.rindex`). -/
def charRIndex (cs : List Char) (c : Char) : Option Nat :=
  match cs.reverse.findIdx? (fun d => d == c) with
  | some k => some (cs.length - 1 - k)
  | none => none

/-- Python list/str indexing, raising `IndexError` when out of range. -/
def pyIdx {α : Type} (l : List α) (i : Nat) : Except String α :=
  match l.get? i with
  | some x => .ok x
  | none => .error ("IndexError: index out of range")

def exceptOfOption {α : Type} (o : Option α) (msg : String) : Except String α :=
  match o with
  | some a => .ok a
  | none => .error msg

/-- Digit list to number (callers guarantee the characters are digits). -/
def digitsToNat (ds : List Char) : Nat :=
  ds.foldl (fun n c => n * 10 + (c.toNat - '0'.toNat)) 0

def lowerAscii (cs : List Char) : List Char := cs.map Char.toLower

/-- The decimal part of Python `float(...)`:
`digits [. digits] [(e|E) [sign] digits]` mapped to an exact rational
(digit-group underscores and IEEE rounding are not modelled). -/
def parseDecimal (neg : Bool) (t : List Char) : Option PVal :=
  let ip := t.takeWhile Char.isDigit
  let r1 := t.dropWhile Char.isDigit
  let (fp, r2) :=
    match r1 with
    | '.' :: r => (r.takeWhile Char.isDigit, r.dropWhile Char.isDigit)
    | r => (([] : List Char), r)
  if ip.isEmpty && fp.isEmpty then none
  else
    -- the digits denote (mantNum / 10^|fp|) * 10^exponent, assembled with a
    -- single normalising `mkRat` so the value is an exact rational
    let mantNum : Nat := digitsToNat ip * 10 ^ fp.length + digitsToNat fp
    let signedNum : Int := if neg then -(mantNum : Int) else (mantNum : Int)
    match r2 with
    | [] => some (.finite (mkRat signedNum (10 ^ fp.length)))
    | e :: r =>
      if e == 'e' || e == 'E' then
        let (eneg, r') :=
          match r with
          | '+' :: rr => (false, rr)
          | '-' :: rr => (true, rr)
          | rr => (false, rr)
        let ed := r'.takeWhile Char.isDigit
        if ed.isEmpty || !(r'.dropWhile Char.isDigit).isEmpty then none
        else
          let ex := digitsToNat ed
          if eneg then some (.finite (mkRat signedNum (10 ^ fp.length * 10 ^ ex)))
          else some (.finite (mkRat (signedNum * (10 : Int) ^ ex) (10 ^ fp.length)))
      else none

/-- Python `float(str)`: strip, optional sign, `inf`/`infinity`/`nan`
(case-insensitive) or a decimal literal; `none` models the `ValueError`. -/
def pyFloat (cs : List Char) : Option PVal :=
  let t := pyStrip cs
  let (neg, t') :=
    match t with
    | '+' :: r => (false, r)
    | '-' :: r => (true, r)
    | r => (false, r)
  let low := lowerAscii t'
  if low == "inf".data || low == "infinity".data then
    some (if neg then .ninf else .inf)
  else if low == "nan".data then some .nan
  else parseDecimal neg t'

def pyFloatE (cs : List Char) : Except String PVal :=
  match pyFloat cs with
  | some v => .ok v
  | none => .error ("could not convert string to float: " ++ String.mk cs)

/-! ### The embedded `prometheus_client` text parser -/

/-- Embeds `_is_character_escaped`: is the character at `pos` preceded by an odd run
of backslashes? -/
def isCharacterEscaped (s : List Char) (pos : Nat) : Bool :=
  ((s.take pos).reverse.takeWhile (fun c => c == '\\')).length % 2 == 1

/-- Embeds `_replace_escaping`: left-to-right substitution of `\\`, `\n`, `\"`. -/
def replaceEscaping : List Char → List Char
  | [] => []
  | '\\' :: c :: rest =>
    if c == '\\' then '\\' :: replaceEscaping rest
    else if c == 'n' then '\n' :: replaceEscaping rest
    else if c == '"' then '"' :: replaceEscaping rest
    else '\\' :: replaceEscaping (c :: rest)
  | c :: rest => c :: replaceEscaping rest

/-- Embeds `_replace_help_escaping`: left-to-right substitution of `\\`, `\n`. -/
def replaceHelpEscaping : List Char → List Char
  | [] => []
  | '\\' :: c :: rest =>
    if c == '\\' then '\\' :: replaceHelpEscaping rest
    else if c == 'n' then '\n' :: replaceHelpEscaping rest
    else '\\' :: replaceHelpEscaping (c :: rest)
  | c :: rest => c :: replaceHelpEscaping rest

/-- The `while i < len(...)` scan for the first unescaped quote in
`_parse_labels`; returns the Python loop's final `i`. -/
def findUnescapedQuote : Nat → List Char → Nat → Except String Nat
  | 0, _, _ => .error ("Invalid")
  | fuel + 1, vs, i =>
    if i < vs.length then
      match charIndexFrom vs '"' i with
      | none => .error ("substring not found")
      | some j =>
        if !isCharacterEscaped vs j then .ok j
        else findUnescapedQuote fuel vs (j + 1)
    else .ok i

/-- The `while sub_labels:` loop of `_parse_labels`; the accumulator is the
label dict, `escaping` is the precomputed `"\\" in labels_string`. -/
def parseLabelsLoop : Nat → List Char → List (String × String) → Bool →
    Except String (List (String × String))
  | 0, _, _, _ => .error ("label loop fuel exhausted")
  | fuel + 1, sub, acc, escaping =>
    if sub.isEmpty then .ok acc
    else do
      let value_start ← exceptOfOption (charIndexFrom sub '=' 0) ("substring not found")
      let label_name := sub.take value_start
      let sub1 := pyLStrip (sub.drop (value_start + 1))
      let qpos ← exceptOfOption (charIndexFrom sub1 '"' 0) ("substring not found")
      let quote_start := qpos + 1
      let value_substr := sub1.drop quote_start
      let i ← findUnescapedQuote (value_substr.length + 1) value_substr 0
      let quote_end := quote_start + i
      let label_value := (sub1.drop quote_start).take i
      let label_value := if escaping then replaceEscaping label_value else label_value
      let acc := dictSet acc (String.mk (pyStrip label_name)) (String.mk label_value)
      let sub2 := sub1.drop (quote_end + 1)
      let next_comma :=
        match charIndexFrom sub2 ',' 0 with
        | some k => k + 1
        | none => 0
      parseLabelsLoop fuel (pyLStrip (sub2.drop next_comma)) acc escaping

/-- Embeds `_parse_labels`. -/
def parseLabels (ls : List Char) : Except String (List (String × String)) :=
  if !ls.contains '=' then .ok []
  else
    let escaping := ls.contains '\\'
    match parseLabelsLoop (ls.length + 1) ls [] escaping with
    | .ok acc => .ok acc
    | .error _ => .error ("Invalid labels: " ++ String.mk ls)

/-- Embeds `_parse_value_and_timestamp`. -/
def parseValueAndTimestamp (s : List Char) : Except String (PVal × Option PVal) := do
  let s := pyLStrip s
  let sep := if s.contains ' ' then ' ' else '\t'
  let values := ((splitOnChar sep s).map pyStrip).filter (fun v => !v.isEmpty)
  match values with
  | [] => do
    let v ← pyFloatE s
    return (v, none)
  | v0 :: _ => do
    let value ← pyFloatE v0
    if values.length > 1 then
      let ts ← pyFloatE (values.getLast?.getD [])
      return (value, some ts.div1000)
    else
      return (value, none)

/-- The `try` branch of `_parse_sample` (sample line with a label block). -/
def parseSampleLabeled (text : List Char) : Except String Sample := do
  let label_start ← exceptOfOption (charIndexFrom text '{' 0) ("substring not found")
  let label_end ← exceptOfOption (charRIndex text '}') ("substring not found")
  let name := pyStrip (text.take label_start)
  let label := (text.take label_end).drop (label_start + 1)
  let (value, ts) ← parseValueAndTimestamp (text.drop (label_end + 1))
  let labels ← parseLabels label
  return ⟨String.mk name, labels, value, ts⟩

/-- Embeds `_parse_sample`: any `ValueError` in the labelled branch falls back to the
bare `name value` branch, whose own errors propagate. -/
def parseSample (text : List Char) : Except String Sample :=
  match parseSampleLabeled text with
  | .ok s => .ok s
  | .error _ => do
    let sep := if text.contains ' ' then ' ' else '\t'
    let name_end ← exceptOfOption (charIndexFrom text sep 0) ("substring not found")
    let name := text.take name_end
    let (value, ts) ← parseValueAndTimestamp (text.drop name_end)
    return ⟨String.mk name, [], value, ts⟩

/-- Embeds `METRIC_TYPES` of `prometheus_client/metrics_core.py`. -/
def METRIC_TYPES : List String :=
  ["counter", "gauge", "summary", "histogram", "gaugehistogram", "unknown",
   "info", "stateset"]

/-- Embeds `build_metric` inside `text_fd_to_metric_families` plus the validation of
`Metric.__init__` (counter munging to the OpenMetrics representation,
`untyped` mapped to `unknown`, unknown kinds raise `ValueError`). -/
def buildMetric (name documentation typ : String) (samples : List Sample) :
    Except String Metric :=
  let (name, samples) :=
    if typ == "counter" then
      if name.endsWith ("_total") then
        (String.mk (name.data.take (name.data.length - 6)), samples)
      else (name, samples.map (fun s => { s with name := s.name ++ "_total" }))
    else (name, samples)
  let typ := if typ == "untyped" then "unknown" else typ
  if METRIC_TYPES.contains typ then .ok ⟨name, documentation, typ, samples⟩
  else .error ("Invalid metric type: " ++ typ)

/-- Mutable state of the `text_fd_to_metric_families` loop; `out` collects the
yielded families in order. -/
structure ParseState where
  name : Option String
  documentation : String
  typ : String
  samples : List Sample
  allowedNames : List String
  out : List Metric

def initParseState : ParseState := ⟨none, "", "untyped", [], [], []⟩

/-- Performs `yield build_metric(...)` for the family being accumulated, if any. -/
def emitCurrent (st : ParseState) : Except String ParseState :=
  match st.name with
  | none => .ok st
  | some n => do
    let m ← buildMetric n st.documentation st.typ st.samples
    return { st with out := st.out ++ [m] }

/-- One iteration of the `for line in fd:` loop. -/
def processLine (st : ParseState) (rawLine : List Char) : Except String ParseState :=
  let line := pyStrip rawLine
  if line.head? == some '#' then
    let parts := pySplitNone 3 line
    if parts.length < 2 then .ok st
    else do
      let p1 ← pyIdx parts 1
      if String.mk p1 == "HELP" then do
        let p2 ← pyIdx parts 2
        let p2s := String.mk p2
        let st ←
          if some p2s != st.name then do
            let st ← emitCurrent st
            pure { st with name := some p2s, typ := "untyped", samples := [],
                           allowedNames := [p2s] }
          else pure st
        if parts.length == 4 then do
          let p3 ← pyIdx parts 3
          return { st with documentation := String.mk (replaceHelpEscaping p3) }
        else
          return { st with documentation := "" }
      else if String.mk p1 == "TYPE" then do
        let p2 ← pyIdx parts 2
        let p2s := String.mk p2
        let st ←
          if some p2s != st.name then do
            let st ← emitCurrent st
            pure { st with name := some p2s, documentation := "", samples := [] }
          else pure st
        let p3 ← pyIdx parts 3
        let typ := String.mk p3
        let allowed :=
          if typ == "summary" then [p2s, p2s ++ "_count", p2s ++ "_sum"]
          else if typ == "histogram" then
            [p2s ++ "_count", p2s ++ "_sum", p2s ++ "_bucket"]
          else [p2s]
        return { st with typ := typ, allowedNames := allowed }
      else .ok st
  else if line.isEmpty then .ok st
  else do
    let sample ← parseSample line
    if !st.allowedNames.contains sample.name then do
      let st ← emitCurrent st
      return { st with name := some sample.name, documentation := "",
                       typ := "untyped", samples := [sample],
                       allowedNames := [sample.name] }
    else
      return { st with samples := st.samples ++ [sample] }

/-- Embeds `text_string_to_metric_families`: the generator, run to completion.  The
tools fully consume the generator inside one `try`, and their per-iteration
work is pure accumulation that an exception discards, so running the parse
first is observationally equivalent. -/
def text_string_to_metric_families (text : String) : Except String (List Metric) := do
  let st ← (splitOnChar '\n' text.data).foldlM processLine initParseState
  let st ← emitCurrent st
  return st.out

/-! ### The metrics projection tools

Each projection tool fetches the exposition text (no 404 special case: any
non-2xx raises inside the first `try`), then parses and projects inside a
second `try` whose `except` returns a tool-specific parse-error envelope.
-/

/-- The first `try` of each projection tool: obtain `resp.text` or the fetch
exception text. -/
def fetchMetricsText : FetchOutcome → Except String String
  | .exn e => .error e
  | .resp r => if is2xx r.status then .ok r.text else .error (httpStatusErrMsg r.status)

/-- Samples of every parsed family carrying the given family name, in document
order (the Python loops test `family.name` and then iterate its samples). -/
def familySamples (fams : List Metric) (n : String) : List Sample :=
  (fams.filter (fun f => f.name == n)).flatMap (fun f => f.samples)

/-- All `(family.name, sample)` pairs over the whole document, in order. -/
def allSamplePairs (fams : List Metric) : List (String × Sample) :=
  fams.flatMap (fun f => f.samples.map (fun s => (f.name, s)))

structure InitiativeRow where
  initiative : Option String
  epic_team : Option String
  proficiency_level : PVal
  deriving DecidableEq, Repr

structure EpicRow where
  epic : Option String
  epic_team : Option String
  proficiency_level : PVal
  deriving DecidableEq, Repr

structure SkillProfile where
  submitter : String
  by_initiative : List InitiativeRow
  by_epic : List EpicRow
  deriving DecidableEq, Repr

/-- The projection loop of `get_submitter_skill_profile`. -/
def skillProfileData (submitter : String) (fams : List Metric) : SkillProfile :=
  { submitter := submitter
    by_initiative :=
      (familySamples fams ("proficiency_by_user_initiative")).filterMap (fun s =>
        if labelsGet s.labels ("submitter") == some submitter then
          some ⟨labelsGet s.labels ("initiative"), labelsGet s.labels ("epic_team"), s.value⟩
        else none)
    by_epic :=
      (familySamples fams ("proficiency_by_user_epic")).filterMap (fun s =>
        if labelsGet s.labels ("submitter") == some submitter then
          some ⟨labelsGet s.labels ("epic"), labelsGet s.labels ("epic_team"), s.value⟩
        else none) }

/-- Tool `get_submitter_skill_profile`. -/
def get_submitter_skill_profile (submitter : String) (out : FetchOutcome) :
    Envelope SkillProfile :=
  match fetchMetricsText out with
  | .error e => .failure ("Failed to fetch Skill Matrix metrics: " ++ e)
  | .ok metrics_text =>
    match text_string_to_metric_families metrics_text with
    | .error e => .failure ("Error parsing Skill Matrix metrics: " ++ e)
    | .ok fams => .success (skillProfileData submitter fams)

structure CoverageRow where
  submitter : Option String
  initiative : Option String
  epic_team : Option String
  coverage_pct : PVal
  deriving DecidableEq, Repr

structure InitiativeCoverage where
  initiative : String
  total_submitters_by_team : List (Option String × PVal)
  coverage_by_submitter : List CoverageRow
  deriving DecidableEq, Repr

/-- Python `dict[team] = value` where `team` may be `None` (a sample may lack the
`epic_team` label). -/
def dictSetTeam (d : List (Option String × PVal)) (k : Option String) (v : PVal) :
    List (Option String × PVal) :=
  if d.any (fun p => p.1 == k) then d.map (fun p => if p.1 == k then (k, v) else p)
  else d ++ [(k, v)]

/-- Selection test shared by the two loops of `get_initiative_coverage`:
`labels.get("initiative") != normalized_initiative → continue`, then
`if epic_team and team != epic_team → continue`. -/
def coveragePass (normalized_initiative epic_team : String) (s : Sample) : Bool :=
  labelsGet s.labels ("initiative") == some normalized_initiative &&
    (epic_team == "" || labelsGet s.labels ("epic_team") == some epic_team)

/-- The projection loop of `get_initiative_coverage`. -/
def initiativeCoverageData (initiative epic_team : String) (fams : List Metric) :
    InitiativeCoverage :=
  let normalized_initiative := pyStripS initiative
  { initiative := normalized_initiative
    total_submitters_by_team :=
      (familySamples fams ("submitter_experience_by_initiative")).foldl (fun d s =>
        if coveragePass normalized_initiative epic_team s then
          dictSetTeam d (labelsGet s.labels ("epic_team")) s.value
        else d) []
    coverage_by_submitter :=
      (familySamples fams ("initiative_coverage")).filterMap (fun s =>
        if coveragePass normalized_initiative epic_team s then
          some ⟨labelsGet s.labels ("submitter"), labelsGet s.labels ("initiative"),
                labelsGet s.labels ("epic_team"), s.value⟩
        else none) }

/-- Tool `get_initiative_coverage` (Python default `epic_team=""`). -/
def get_initiative_coverage (initiative epic_team : String) (out : FetchOutcome) :
    Envelope InitiativeCoverage :=
  match fetchMetricsText out with
  | .error e => .failure ("Failed to fetch Skill Matrix metrics: " ++ e)
  | .ok metrics_text =>
    match text_string_to_metric_families metrics_text with
    | .error e => .failure ("Error parsing Skill Matrix initiative metrics: " ++ e)
    | .ok fams => .success (initiativeCoverageData initiative epic_team fams)

structure CandidateRow where
  submitter : Option String
  initiative : Option String
  epic_team : Option String
  proficiency_level : PVal
  deriving DecidableEq, Repr

structure BestSubmitters where
  initiative : String
  min_level : Int
  candidates : List CandidateRow
  deriving DecidableEq, Repr

/-- The candidate list of `find_best_submitters_for_initiative` before the
sort, in encounter order. -/
def bestCandidatesUnsorted (initiative : String) (min_level : Int)
    (fams : List Metric) : List CandidateRow :=
  let normalized_initiative := pyStripS initiative
  (familySamples fams ("proficiency_by_user_initiative")).filterMap (fun s =>
    if labelsGet s.labels ("initiative") == some normalized_initiative &&
        s.value.geInt min_level then
      some ⟨labelsGet s.labels ("submitter"), labelsGet s.labels ("initiative"),
            labelsGet s.labels ("epic_team"), s.value⟩
    else none)

/-- The descending key order of `list.sort(key=..., reverse=True)`: `a` may
stay before `b` when `key a ≥ key b`.  Python's sort is stable, and for
totally ordered keys every stable descending sort yields the same list, so
`mergeSort` with this relation models it. -/
def pyDescBy {α : Type} (key : α → PVal) (a b : α) : Bool :=
  PVal.ble (key b) (key a)

/-- Embeds `candidates.sort(key=lambda c: c["proficiency_level"], reverse=True)`. -/
def descByLevel : CandidateRow → CandidateRow → Bool :=
  pyDescBy (fun c => c.proficiency_level)

/-- The projection of `find_best_submitters_for_initiative` (default
`min_level=3`). -/
def bestSubmittersData (initiative : String) (min_level : Int)
    (fams : List Metric) : BestSubmitters :=
  { initiative := pyStripS initiative
    min_level := min_level
    candidates := (bestCandidatesUnsorted initiative min_level fams).mergeSort descByLevel }

/-- Tool `find_best_submitters_for_initiative`. -/
def find_best_submitters_for_initiative (initiative : String) (min_level : Int)
    (out : FetchOutcome) : Envelope BestSubmitters :=
  match fetchMetricsText out with
  | .error e => .failure ("Failed to fetch Skill Matrix metrics: " ++ e)
  | .ok metrics_text =>
    match text_string_to_metric_families metrics_text with
    | .error e => .failure ("Error parsing proficiency metrics: " ++ e)
    | .ok fams => .success (bestSubmittersData initiative min_level fams)

structure LevelRow where
  submitter : Option String
  epic_team : Option String
  proficiency_level : PVal
  deriving DecidableEq, Repr

structure EpicExpertise where
  epic : String
  total_submitters : PVal
  submitter_levels : List LevelRow
  deriving DecidableEq, Repr

def descLevelRow : LevelRow → LevelRow → Bool :=
  pyDescBy (fun c => c.proficiency_level)

/-- The matching `proficiency_by_user_epic` rows of `get_epic_expertise`
before the sort. -/
def epicLevelsUnsorted (target_epic : String) (fams : List Metric) : List LevelRow :=
  (familySamples fams ("proficiency_by_user_epic")).filterMap (fun s =>
    if labelsGet s.labels ("epic") == some target_epic then
      some ⟨labelsGet s.labels ("submitter"), labelsGet s.labels ("epic_team"), s.value⟩
    else none)

/-- The projection of `get_epic_expertise`.  Note `target_epic = epic or
"Unknown"`: an empty requested epic is replaced by `"Unknown"`. -/
def epicExpertiseData (epic : String) (fams : List Metric) : EpicExpertise :=
  let target_epic := if epic == "" then "Unknown" else epic
  { epic := target_epic
    total_submitters :=
      (familySamples fams ("submitter_experience_by_epic")).foldl (fun acc s =>
        if labelsGet s.labels ("epic") == some target_epic then s.value else acc)
        (PVal.finite 0)
    submitter_levels := (epicLevelsUnsorted target_epic fams).mergeSort descLevelRow }

/-- Tool `get_epic_expertise`. -/
def get_epic_expertise (epic : String) (out : FetchOutcome) : Envelope EpicExpertise :=
  match fetchMetricsText out with
  | .error e => .failure ("Failed to fetch Skill Matrix metrics: " ++ e)
  | .ok metrics_text =>
    match text_string_to_metric_families metrics_text with
    | .error e => .failure ("Error parsing epic expertise metrics: " ++ e)
    | .ok fams => .success (epicExpertiseData epic fams)

structure GroupSummary where
  group : String
  engagement_rate : Option PVal
  avg_time_to_first_vote_hours : Option PVal
  avg_vote_up_duration_hours : Option PVal
  total_reviews : Option PVal
  avg_review_duration_hours : Option PVal
  fully_engaged_reviews : Option PVal
  partially_engaged_reviews : Option PVal
  not_engaged_reviews : Option PVal
  needs_review_count : Option PVal
  deriving DecidableEq, Repr

def emptyGroupSummary (group : String) : GroupSummary :=
  ⟨group, none, none, none, none, none, none, none, none, none⟩

/-- The name-dispatch of `get_swarm_group_summary` for one `(family.name,
sample)` pair. -/
def groupSummaryStep (target_group : String) (acc : GroupSummary)
    (p : String × Sample) : GroupSummary :=
  if labelsGet p.2.labels ("group") == some target_group then
    let val := p.2.value
    if p.1 == "group_engagement_rate" then { acc with engagement_rate := some val }
    else if p.1 == "group_avg_time_to_first_vote" then
      { acc with avg_time_to_first_vote_hours := some val }
    else if p.1 == "group_avg_vote_up_duration" then
      { acc with avg_vote_up_duration_hours := some val }
    else if p.1 == "group_total_reviews" then { acc with total_reviews := some val }
    else if p.1 == "group_avg_review_duration" then
      { acc with avg_review_duration_hours := some val }
    else if p.1 == "group_fully_engaged_reviews" then
      { acc with fully_engaged_reviews := some val }
    else if p.1 == "group_partially_engaged_reviews" then
      { acc with partially_engaged_reviews := some val }
    else if p.1 == "group_not_engaged_reviews" then
      { acc with not_engaged_reviews := some val }
    else if p.1 == "group_needs_review_count" then
      { acc with needs_review_count := some val }
    else acc
  else acc

def groupSummaryData (group : String) (fams : List Metric) : GroupSummary :=
  (allSamplePairs fams).foldl (groupSummaryStep group) (emptyGroupSummary group)

/-- Tool `get_swarm_group_summary`. -/
def get_swarm_group_summary (group : String) (out : FetchOutcome) :
    Envelope GroupSummary :=
  match fetchMetricsText out with
  | .error e => .failure ("Failed to fetch Swarm metrics: " ++ e)
  | .ok metrics_text =>
    match text_string_to_metric_families metrics_text with
    | .error e => .failure ("Error parsing Swarm metrics: " ++ e)
    | .ok fams => .success (groupSummaryData group fams)

structure ContributorRow where
  group : Option String
  contributor : Option String
  activity_count : PVal
  deriving DecidableEq, Repr

structure TopContributors where
  group : String
  top_contributors : List ContributorRow
  deriving DecidableEq, Repr

/-- Python `l[:limit]` for an `int` limit (negative limits clip from the end). -/
def pySliceTo {α : Type} (n : Int) (l : List α) : List α :=
  if 0 ≤ n then l.take n.toNat else l.take (l.length - (-n).toNat)

def descByActivity : ContributorRow → ContributorRow → Bool :=
  pyDescBy (fun c => c.activity_count)

/-- The contributor list of `get_swarm_group_top_contributors` before the
sort, in encounter order. -/
def contributorsUnsorted (group : String) (fams : List Metric) : List ContributorRow :=
  (familySamples fams ("group_top_contributor")).filterMap (fun s =>
    if labelsGet s.labels ("group") == some group then
      some ⟨labelsGet s.labels ("group"), labelsGet s.labels ("contributor"), s.value⟩
    else none)

/-- The projection of `get_swarm_group_top_contributors` (default `limit=5`). -/
def topContributorsData (group : String) (limit : Int) (fams : List Metric) :
    TopContributors :=
  { group := group
    top_contributors :=
      pySliceTo limit ((contributorsUnsorted group fams).mergeSort descByActivity) }

/-- Tool `get_swarm_group_top_contributors`. -/
def get_swarm_group_top_contributors (group : String) (limit : Int)
    (out : FetchOutcome) : Envelope TopContributors :=
  match fetchMetricsText out with
  | .error e => .failure ("Failed to fetch Swarm metrics: " ++ e)
  | .ok metrics_text =>
    match text_string_to_metric_families metrics_text with
    | .error e => .failure ("Error parsing top contributors: " ++ e)
    | .ok fams => .success (topContributorsData group limit fams)

structure DailySnapshot where
  group : String
  daily_engagement_rate : Option PVal
  daily_avg_time_to_first_vote_hours : Option PVal
  daily_avg_vote_up_duration_hours : Option PVal
  daily_total_reviews : Option PVal
  daily_avg_review_duration_hours : Option PVal
  daily_needs_review_count : Option PVal
  deriving DecidableEq, Repr

def emptyDailySnapshot (group : String) : DailySnapshot :=
  ⟨group, none, none, none, none, none, none⟩

/-- The name-dispatch of `get_swarm_group_daily_snapshot` for one pair. -/
def dailySnapshotStep (target_group : String) (acc : DailySnapshot)
    (p : String × Sample) : DailySnapshot :=
  if labelsGet p.2.labels ("group") == some target_group then
    let val := p.2.value
    if p.1 == "group_daily_engagement_rate" then
      { acc with daily_engagement_rate := some val }
    else if p.1 == "group_daily_avg_time_to_first_vote" then
      { acc with daily_avg_time_to_first_vote_hours := some val }
    else if p.1 == "group_daily_avg_vote_up_duration" then
      { acc with daily_avg_vote_up_duration_hours := some val }
    else if p.1 == "group_daily_total_reviews" then
      { acc with daily_total_reviews := some val }
    else if p.1 == "group_daily_avg_review_duration" then
      { acc with daily_avg_review_duration_hours := some val }
    else if p.1 == "group_daily_needs_review_count" then
      { acc with daily_needs_review_count := some val }
    else acc
  else acc

def dailySnapshotData (group : String) (fams : List Metric) : DailySnapshot :=
  (allSamplePairs fams).foldl (dailySnapshotStep group) (emptyDailySnapshot group)

/-- Tool `get_swarm_group_daily_snapshot`. -/
def get_swarm_group_daily_snapshot (group : String) (out : FetchOutcome) :
    Envelope DailySnapshot :=
  match fetchMetricsText out with
  | .error e => .failure ("Failed to fetch Swarm metrics: " ++ e)
  | .ok metrics_text =>
    match text_string_to_metric_families metrics_text with
    | .error e => .failure ("Error parsing Swarm daily metrics: " ++ e)
    | .ok fams => .success (dailySnapshotData group fams)

/-! ### The Family Filter (spec §4.2) -/

/-- Whether `needle` occurs as a contiguous substring of `hay`. -/
def isSubstring : List Char → List Char → Bool
  | needle, [] => needle.isEmpty
  | needle, c :: rest => needle.isPrefixOf (c :: rest) || isSubstring needle rest

/-- Modelled from the spec: the repository has no Family Filter implementation
(spec §4.2 specifies `filterRelevant(text, allowedNames)` but `src/server.py`
contains no such function), so the keep-condition follows the spec's words:
a `# HELP`/`# TYPE` line is kept when its declared name matches an allowed
name by substring, any other comment or blank line is dropped, and a sample
line is kept when its leading name token (the token before `{` or whitespace)
starts with one of the allowed names. -/
def filterKeepLine (allowedNames : List String) (line : List Char) : Bool :=
  if ("# HELP ".data).isPrefixOf line || ("# TYPE ".data).isPrefixOf line then
    let rest := pyLStrip (line.drop 7)
    let declared := rest.takeWhile (fun c => !pyWhitespaceChar c)
    allowedNames.any (fun a => isSubstring a.data declared)
  else if line.head? == some '#' then false
  else
    let tok := line.takeWhile (fun c => !pyWhitespaceChar c && !(c == '{'))
    allowedNames.any (fun a => a.data.isPrefixOf tok)

/-- Join lines with a newline separator. -/
def joinLines : List (List Char) → List Char
  | [] => []
  | [l] => l
  | l :: ls => l ++ '\n' :: joinLines ls

/-- Modelled from the spec: `filterRelevant(text, allowedNames)` (spec §4.2),
absent from `src/server.py` — split the raw text into lines, keep the
qualifying lines, and rejoin. -/
def filterRelevant (text : String) (allowedNames : List String) : String :=
  String.mk (joinLines ((splitOnChar '\n' text.data).filter (filterKeepLine allowedNames)))

/-! ### Definitions used by the theorems: the envelope invariant, the spec-side
normalisation, and concrete demonstration inputs
-/

/-- The spec's envelope invariant: `ok=true` implies no error and present
data, `ok=false` implies no data and a present error message; exactly one of
the two fields is populated. -/
def envelopeInv {α : Type} (e : Envelope α) : Prop :=
  (e.ok = true → e.error = none ∧ e.data.isSome = true) ∧
  (e.ok = false → e.data = none ∧ e.error.isSome = true) ∧
  (e.data.isSome = true ↔ e.error = none)

/-- Modelled from the spec's words (refinement comparison only, not code):
`trimLower` — both sides trimmed of leading/trailing whitespace and
lower-cased before comparison. -/
def trimLowerMatch (a b : String) : Bool :=
  lowerAscii (pyStrip a.data) == lowerAscii (pyStrip b.data)

/-- Scenario input of the spec: one bare exposition sample line. -/
def scenarioText : String :=
  "proficiency_by_user_initiative\x7bsubmitter=\"alice\",initiative=\"Foo\",epic_team=\"T1\"\x7d 3"

/-- A gauge sample of `proficiency_by_user_initiative`. -/
def profSample (submitter initiative team : String) (v : PVal) : Sample :=
  ⟨"proficiency_by_user_initiative",
   [("submitter", submitter), ("initiative", initiative), ("epic_team", team)], v, none⟩

/-- Demo document for the `[2,3,4]` scenario: three samples for initiative
`X` at levels 2, 3, 4, in that encounter order. -/
def demoLevelsFams : List Metric :=
  [⟨"proficiency_by_user_initiative", "", "gauge",
    [profSample ("alice") ("X") ("T") (.finite 2),
     profSample ("bob") ("X") ("T") (.finite 3),
     profSample ("carol") ("X") ("T") (.finite 4)]⟩]

/-- Demo document with a sample labelled `initiative="Foo"` at level 3. -/
def demoFooFams : List Metric :=
  [⟨"proficiency_by_user_initiative", "", "gauge",
    [profSample ("alice") ("Foo") ("T1") (.finite 3)]⟩]

/-- Demo document with a sample labelled `initiative="Foo "` (trailing space
in the label) at level 3. -/
def demoFooTrailingFams : List Metric :=
  [⟨"proficiency_by_user_initiative", "", "gauge",
    [profSample ("alice") ("Foo ") ("T1") (.finite 3)]⟩]

/-- Demo document with a sample labelled `initiative="foo"` (lower case) at
level 3, plus an `initiative_coverage` sample labelled `initiative="foo"`. -/
def demoFooLowerFams : List Metric :=
  [⟨"proficiency_by_user_initiative", "", "gauge",
    [profSample ("alice") ("foo") ("T1") (.finite 3)]⟩,
   ⟨"initiative_coverage", "", "gauge",
    [⟨"initiative_coverage",
      [("submitter", "alice"), ("initiative", "foo"), ("epic_team", "T1")],
      .finite 80, none⟩]⟩]

/-- Demo document whose `initiative_coverage` sample carries no `epic_team`
label at all. -/
def demoNoTeamFams : List Metric :=
  [⟨"initiative_coverage", "", "gauge",
    [⟨"initiative_coverage", [("initiative", "I"), ("submitter", "u")],
      .finite 1, none⟩]⟩]

/-- Demo document for the top-contributor scenario: contributors `a`, `b`,
`c` with activity counts 5, 5, 3 in group `G`. -/
def demoContribFams : List Metric :=
  [⟨"group_top_contributor", "", "gauge",
    [⟨"group_top_contributor", [("group", "G"), ("contributor", "a")], .finite 5, none⟩,
     ⟨"group_top_contributor", [("group", "G"), ("contributor", "b")], .finite 5, none⟩,
     ⟨"group_top_contributor", [("group", "G"), ("contributor", "c")], .finite 3, none⟩]⟩]

/-- Counterexample document for C8: a `submitter_experience_by_epic` sample
whose `epic` label is the empty string, with value 7. -/
def demoEmptyEpicFams : List Metric :=
  [⟨"submitter_experience_by_epic", "", "gauge",
    [⟨"submitter_experience_by_epic", [("epic", "")], .finite 7, none⟩]⟩]

/-- Upstream outcome whose body text was obtained but does not parse. -/
def garbageOutcome : FetchOutcome := .resp ⟨200, "garbage", .ok .null⟩

/-- Upstream 2xx JSON body used against the verbatim-pass-through claim. -/
def hoursCexBody : Json := .obj [("foo", .num 1)]

def hoursCexOutcome : FetchOutcome := .resp ⟨200, "", .ok hoursCexBody⟩

/-! ### Helper lemmas -/

theorem PVal.ble_refl (a : PVal) : PVal.ble a a = true := by
  cases a <;> simp [PVal.ble]

theorem PVal.ble_trans (a b c : PVal) (hab : PVal.ble a b = true)
    (hbc : PVal.ble b c = true) : PVal.ble a c = true := by
  cases a <;> cases b <;> cases c <;> simp_all [PVal.ble]
  exact le_trans hab hbc

theorem PVal.ble_total (a b : PVal) : (PVal.ble a b || PVal.ble b a) = true := by
  cases a <;> cases b <;> simp [PVal.ble]
  exact le_total _ _

theorem pyDescBy_trans {α : Type} (key : α → PVal) (a b c : α)
    (hab : pyDescBy key a b = true) (hbc : pyDescBy key b c = true) :
    pyDescBy key a c = true :=
  PVal.ble_trans _ _ _ hbc hab

theorem pyDescBy_total {α : Type} (key : α → PVal) (a b : α) :
    (pyDescBy key a b || pyDescBy key b a) = true := by
  simpa [pyDescBy] using PVal.ble_total (key b) (key a)

/-- A stable sort leaves any run of equivalent elements (any set of elements
on which `le` always holds) in encounter order: filtering the sorted list by a
predicate closed under the order gives the filter of the input. -/
theorem mergeSort_filter_stable {α : Type} (le : α → α → Bool)
    (htrans : ∀ a b c, le a b = true → le b c = true → le a c = true)
    (htotal : ∀ a b, (le a b || le b a) = true)
    (l : List α) (p : α → Bool)
    (hp : ∀ a b, p a = true → p b = true → le a b = true) :
    (l.mergeSort le).filter p = l.filter p := by
  have hpair : (l.filter p).Pairwise (fun a b => le a b = true) :=
    List.pairwise_of_forall_mem_list (fun a ha b hb =>
      hp a b (List.of_mem_filter ha) (List.of_mem_filter hb))
  have hsub : (l.filter p).Sublist (l.mergeSort le) :=
    List.sublist_mergeSort htrans htotal hpair (List.filter_sublist l)
  have hself : (l.filter p).filter p = l.filter p :=
    List.filter_eq_self.mpr (fun a ha => List.of_mem_filter ha)
  have hsub2 : (l.filter p).Sublist ((l.mergeSort le).filter p) := by
    have := List.Sublist.filter p hsub
    rwa [hself] at this
  have hlen : ((l.mergeSort le).filter p).length = (l.filter p).length :=
    (List.Perm.filter p (List.mergeSort_perm l le)).length_eq
  exact (hsub2.eq_of_length hlen.symm).symm

/-- Stability of the modelled Python sort: the elements whose key equals any
given value keep their encounter order. -/
theorem mergeSort_descBy_stable {α : Type} [DecidableEq α] (key : α → PVal)
    (l : List α) (v : PVal) :
    (l.mergeSort (pyDescBy key)).filter (fun r => key r == v) =
      l.filter (fun r => key r == v) := by
  refine mergeSort_filter_stable _ (fun a b c => pyDescBy_trans key a b c)
    (fun a b => pyDescBy_total key a b) l _ (fun a b ha hb => ?_)
  have ha' : key a = v := by simpa using ha
  have hb' : key b = v := by simpa using hb
  simp only [pyDescBy, ha', hb']
  exact PVal.ble_refl v

/-- Sortedness of the modelled Python sort. -/
theorem mergeSort_descBy_sorted {α : Type} (key : α → PVal) (l : List α) :
    (l.mergeSort (pyDescBy key)).Pairwise (fun a b => pyDescBy key a b = true) :=
  List.sorted_mergeSort (fun a b c => pyDescBy_trans key a b c)
    (fun a b => pyDescBy_total key a b) l

/-- A `filterMap` with an if-then-some guard is a filter followed by a map. -/
theorem filterMap_guard_eq {α β : Type} (p : α → Bool) (f : α → β) (l : List α) :
    l.filterMap (fun a => if p a then some (f a) else none) =
      (l.filter p).map f := by
  induction l with
  | nil => rfl
  | cons x xs ih =>
    by_cases hx : p x = true <;> simp [List.filterMap_cons, List.filter_cons, hx, ih]

/-- A fold that overwrites an accumulator at every element passing `sel`
computes `f` of the last passing element ("last sample wins"), or the initial
value when no element passes. -/
theorem foldl_lastwins {α β : Type} (sel : α → Bool) (f : α → β) (l : List α)
    (init : β) :
    l.foldl (fun acc s => if sel s then f s else acc) init =
      ((l.reverse.find? sel).elim init f) := by
  induction l generalizing init with
  | nil => rfl
  | cons x xs ih =>
    simp only [List.foldl_cons, List.reverse_cons, List.find?_append, ih]
    cases hfx : xs.reverse.find? sel with
    | some y => simp [Option.or, Option.elim]
    | none =>
      by_cases hx : sel x = true
      · simp [Option.or, List.find?, hx, Option.elim]
      · have hx' : sel x = false := by simpa using hx
        simp [Option.or, List.find?, hx', Option.elim]

/-- The function `splitOnChar` never returns the empty list. -/
theorem splitOnChar_ne_nil (sep : Char) (cs : List Char) :
    splitOnChar sep cs ≠ [] := by
  cases cs with
  | nil => simp [splitOnChar]
  | cons c cs =>
    cases hsp : splitOnChar sep cs with
    | nil => simp [splitOnChar, hsp]
    | cons m ms =>
      simp only [splitOnChar, hsp]
      split <;> simp

/-- Every piece produced by `splitOnChar` is free of the separator. -/
theorem splitOnChar_no_sep (sep : Char) (cs : List Char) :
    ∀ l ∈ splitOnChar sep cs, sep ∉ l := by
  induction cs with
  | nil => intro l hl; simp [splitOnChar] at hl; simp [hl]
  | cons c cs ih =>
    intro l hl
    cases hsp : splitOnChar sep cs with
    | nil => exact absurd hsp (splitOnChar_ne_nil sep cs)
    | cons m ms =>
      simp only [splitOnChar, hsp] at hl
      by_cases hc : (c == sep) = true
      · rw [if_pos hc] at hl
        rcases List.mem_cons.mp hl with h | h
        · subst h; simp
        · exact ih l (hsp ▸ h)
      · rw [if_neg hc] at hl
        rcases List.mem_cons.mp hl with h | h
        · subst h
          intro hmem
          rcases List.mem_cons.mp hmem with h' | h'
          · exact hc (by simp [h'])
          · exact ih m (hsp ▸ List.mem_cons_self m ms) h'
        · exact ih l (hsp ▸ List.mem_cons.mpr (Or.inr h))

/-- Splitting a separator-free line returns just that line. -/
theorem splitOnChar_of_no_sep (sep : Char) (l : List Char) (h : sep ∉ l) :
    splitOnChar sep l = [l] := by
  induction l with
  | nil => rfl
  | cons c cs ih =>
    have hc : ¬(c == sep) = true := by
      simp only [beq_iff_eq]; intro hh; exact h (hh ▸ List.mem_cons_self c cs)
    have hcs : sep ∉ cs := fun hm => h (List.mem_cons_of_mem c hm)
    simp only [splitOnChar, ih hcs, if_neg hc]

/-- Splitting `l ++ sep :: rest` for separator-free `l` peels off `l`. -/
theorem splitOnChar_append (sep : Char) (l rest : List Char) (h : sep ∉ l) :
    splitOnChar sep (l ++ sep :: rest) = l :: splitOnChar sep rest := by
  induction l with
  | nil =>
    cases hsp : splitOnChar sep rest with
    | nil => exact absurd hsp (splitOnChar_ne_nil sep rest)
    | cons m ms => simp [splitOnChar, hsp]
  | cons c cs ih =>
    have hc : ¬(c == sep) = true := by
      simp only [beq_iff_eq]; intro hh; exact h (hh ▸ List.mem_cons_self c cs)
    have hcs : sep ∉ cs := fun hm => h (List.mem_cons_of_mem c hm)
    simp only [List.cons_append, List.append_eq, splitOnChar, ih hcs, if_neg hc]

/-- Round trip: splitting a join of newline-free, nonempty line list gives the
lines back. -/
theorem splitOnChar_joinLines (ls : List (List Char)) (hne : ls ≠ [])
    (h : ∀ l ∈ ls, '\n' ∉ l) :
    splitOnChar '\n' (joinLines ls) = ls := by
  induction ls with
  | nil => exact absurd rfl hne
  | cons l ls ih =>
    cases ls with
    | nil =>
      simp only [joinLines]
      exact splitOnChar_of_no_sep '\n' l (h l (List.mem_cons_self l []))
    | cons m ms =>
      have hstep : joinLines (l :: m :: ms) = l ++ '\n' :: joinLines (m :: ms) := rfl
      rw [hstep, splitOnChar_append '\n' l _ (h l (.head _)),
        ih (by simp) (fun x hx => h x (.tail l hx))]

/-- Folding over a filtered list is folding with a guard. -/
theorem foldl_filter_eq {α β : Type} (p : α → Bool) (f : β → α → β) (l : List α)
    (init : β) :
    (l.filter p).foldl f init =
      l.foldl (fun acc a => if p a then f acc a else acc) init := by
  induction l generalizing init with
  | nil => rfl
  | cons x xs ih =>
    by_cases hx : p x = true
    · rw [List.filter_cons_of_pos hx]
      simp only [List.foldl_cons, if_pos hx]
      exact ih _
    · rw [List.filter_cons_of_neg (by simp [hx])]
      simp only [List.foldl_cons, if_neg hx]
      exact ih _

/-- Python `l[:k]` for a non-negative limit is `take`. -/
theorem pySliceTo_ofNat {α : Type} (k : Nat) (l : List α) :
    pySliceTo (k : Int) l = l.take k := by
  simp [pySliceTo]

theorem envelopeInv_success {α : Type} (d : α) : envelopeInv (Envelope.success d) := by
  simp [envelopeInv, Envelope.success]

theorem envelopeInv_failure {α : Type} (m : String) :
    envelopeInv (Envelope.failure m : Envelope α) := by
  simp [envelopeInv, Envelope.failure]

theorem envelopeInv_proxyGet (nf : String) (w : String → String) (out : FetchOutcome) :
    envelopeInv (proxyGet nf w out) := by
  cases out with
  | exn e => exact envelopeInv_failure _
  | resp r =>
    simp only [proxyGet]
    repeat' split
    all_goals first
      | exact envelopeInv_failure _
      | exact envelopeInv_success _

theorem envelopeInv_rawMetricsGet (nf : String) (w : String → String)
    (out : FetchOutcome) : envelopeInv (rawMetricsGet nf w out) := by
  cases out with
  | exn e => exact envelopeInv_failure _
  | resp r =>
    simp only [rawMetricsGet]
    repeat' split
    all_goals first
      | exact envelopeInv_failure _
      | exact envelopeInv_success _

theorem envelopeInv_projTool {α : Type} (a b : String) (proj : List Metric → α)
    (out : FetchOutcome) :
    envelopeInv
      (match fetchMetricsText out with
       | .error e => Envelope.failure (a ++ e)
       | .ok t =>
         match text_string_to_metric_families t with
         | .error e => Envelope.failure (b ++ e)
         | .ok fams => Envelope.success (proj fams)) := by
  repeat' split
  all_goals first
    | exact envelopeInv_failure _
    | exact envelopeInv_success _

theorem envelopeInv_hours (sid un : String) (out : FetchOutcome) :
    envelopeInv (get_user_sprint_hours sid un out) := by
  cases out with
  | exn e => exact envelopeInv_failure _
  | resp r =>
    simp only [get_user_sprint_hours]
    repeat' split
    all_goals first
      | exact envelopeInv_failure _
      | exact envelopeInv_success _

theorem envelopeInv_history (g sd ed : String) (out : FetchOutcome) :
    envelopeInv (get_swarm_group_history g sd ed out) := by
  cases out with
  | exn e => exact envelopeInv_failure _
  | resp r =>
    simp only [get_swarm_group_history]
    repeat' split
    all_goals first
      | exact envelopeInv_failure _
      | exact envelopeInv_success _

/-! ### The claims -/

attribute [local semireducible] List.mergeSort List.merge

/-- Claim C1: for every public operation and every possible input and upstream
outcome, the returned envelope satisfies the invariant — `ok=true` implies the
error field is absent and the data field present, `ok=false` implies the data
field is absent and the error field is a string; exactly one of data/error is
populated. -/
theorem C1_envelope_invariant :
    (∀ stream out, envelopeInv (get_p4_stream_summary stream out)) ∧
    (∀ stream cls out, envelopeInv (check_stream_changelists stream cls out)) ∧
    (∀ stream out, envelopeInv (get_stream_changelists stream out)) ∧
    (∀ stream out, envelopeInv (get_stream_files stream out)) ∧
    (∀ cl out, envelopeInv (get_changelist_details cl out)) ∧
    (∀ cls out, envelopeInv (find_changelist_streams cls out)) ∧
    (∀ sprint_name out, envelopeInv (get_sprint_metrics sprint_name out)) ∧
    (∀ out, envelopeInv (get_active_jira_sprints out)) ∧
    (∀ sid sf out, envelopeInv (get_jira_sprint_tasks sid sf out)) ∧
    (∀ sid un sf out, envelopeInv (get_user_sprint_tasks sid un sf out)) ∧
    (∀ sid un out, envelopeInv (get_user_sprint_hours sid un out)) ∧
    (∀ q sid un sf out, envelopeInv (search_jira_tasks q sid un sf out)) ∧
    (∀ out, envelopeInv (get_skill_matrix_metrics_raw out)) ∧
    (∀ sub out, envelopeInv (get_submitter_skill_profile sub out)) ∧
    (∀ ini et out, envelopeInv (get_initiative_coverage ini et out)) ∧
    (∀ ini lvl out, envelopeInv (find_best_submitters_for_initiative ini lvl out)) ∧
    (∀ ep out, envelopeInv (get_epic_expertise ep out)) ∧
    (∀ out, envelopeInv (get_swarm_metrics_raw out)) ∧
    (∀ g out, envelopeInv (get_swarm_group_summary g out)) ∧
    (∀ g lim out, envelopeInv (get_swarm_group_top_contributors g lim out)) ∧
    (∀ g out, envelopeInv (get_swarm_group_daily_snapshot g out)) ∧
    (∀ g sd ed out, envelopeInv (get_swarm_group_history g sd ed out)) := by
  refine ⟨fun _ o => envelopeInv_proxyGet _ _ o,
    fun _ _ o => envelopeInv_proxyGet _ _ o,
    fun _ o => envelopeInv_proxyGet _ _ o,
    fun _ o => envelopeInv_proxyGet _ _ o,
    fun _ o => envelopeInv_proxyGet _ _ o,
    fun _ o => envelopeInv_proxyGet _ _ o,
    fun _ o => envelopeInv_proxyGet _ _ o,
    fun o => envelopeInv_proxyGet _ _ o,
    fun _ _ o => envelopeInv_proxyGet _ _ o,
    fun _ _ _ o => envelopeInv_proxyGet _ _ o,
    fun s u o => envelopeInv_hours s u o,
    fun _ _ _ _ o => envelopeInv_proxyGet _ _ o,
    fun o => envelopeInv_rawMetricsGet _ _ o,
    fun s o => envelopeInv_projTool _ _ (skillProfileData s) o,
    fun i et o => envelopeInv_projTool _ _ (initiativeCoverageData i et) o,
    fun i lvl o => envelopeInv_projTool _ _ (bestSubmittersData i lvl) o,
    fun ep o => envelopeInv_projTool _ _ (epicExpertiseData ep) o,
    fun o => envelopeInv_rawMetricsGet _ _ o,
    fun g o => envelopeInv_projTool _ _ (groupSummaryData g) o,
    fun g lim o => envelopeInv_projTool _ _ (topContributorsData g lim) o,
    fun g o => envelopeInv_projTool _ _ (dailySnapshotData g) o,
    fun g sd ed o => envelopeInv_history g sd ed o⟩

/-- Claim C10: the Family Filter is idempotent — filtering already-filtered
text with the same allow-list yields the same text. -/
theorem C10_filterRelevant_idempotent :
    ∀ (text : String) (allowedNames : List String),
      filterRelevant (filterRelevant text allowedNames) allowedNames =
        filterRelevant text allowedNames := by
  intro text names
  set kept := (splitOnChar '\n' text.data).filter (filterKeepLine names) with hkept
  show String.mk (joinLines ((splitOnChar '\n'
      (String.mk (joinLines kept)).data).filter (filterKeepLine names))) =
    String.mk (joinLines kept)
  have hdata : (String.mk (joinLines kept)).data = joinLines kept := rfl
  rw [hdata]
  by_cases hke : kept = []
  · rw [hke]
    show String.mk (joinLines ((splitOnChar '\n' []).filter (filterKeepLine names))) =
      String.mk (joinLines [])
    by_cases h0 : filterKeepLine names [] = true
    · simp [splitOnChar, joinLines, List.filter_cons, h0]
    · simp [splitOnChar, joinLines, List.filter_cons, h0]
  · have hnl : ∀ x ∈ kept, '\n' ∉ x := by
      intro x hx
      rw [hkept] at hx
      exact splitOnChar_no_sep '\n' text.data x (List.mem_of_mem_filter hx)
    rw [splitOnChar_joinLines kept hke hnl]
    have hself : kept.filter (filterKeepLine names) = kept := by
      refine List.filter_eq_self.mpr (fun a ha => ?_)
      rw [hkept] at ha
      exact List.of_mem_filter ha
    rw [hself]

/-- Claim C2 (amended): in `get_initiative_coverage` and
`find_best_submitters_for_initiative` the requested initiative is stripped of
leading and trailing whitespace and then compared byte-for-byte —
case-sensitively, with no normalisation of the sample's label — against the
sample's `initiative` label.  A query `"Foo "` therefore matches a sample
labelled `initiative="Foo"`, but not one labelled `initiative="foo"` and not
one labelled `initiative="Foo "`. -/
theorem C2_initiative_match_strip_exact :
    (∀ initiative min_level fams,
      bestCandidatesUnsorted initiative min_level fams =
        ((familySamples fams ("proficiency_by_user_initiative")).filter (fun s =>
            labelsGet s.labels ("initiative") == some (pyStripS initiative) &&
              s.value.geInt min_level)).map (fun s =>
          ⟨labelsGet s.labels ("submitter"), labelsGet s.labels ("initiative"),
           labelsGet s.labels ("epic_team"), s.value⟩)) ∧
    (∀ initiative epic_team fams,
      (initiativeCoverageData initiative epic_team fams).coverage_by_submitter =
        ((familySamples fams ("initiative_coverage")).filter
            (coveragePass (pyStripS initiative) epic_team)).map (fun s =>
          ⟨labelsGet s.labels ("submitter"), labelsGet s.labels ("initiative"),
           labelsGet s.labels ("epic_team"), s.value⟩)) ∧
    pyStripS ("Foo ") = "Foo" ∧
    (bestSubmittersData ("Foo ") 3 demoFooFams).candidates =
      [⟨some ("alice"), some ("Foo"), some ("T1"), .finite 3⟩] ∧
    (bestSubmittersData ("Foo") 3 demoFooTrailingFams).candidates = [] := by
  refine ⟨fun i lvl fams => ?_, fun i et fams => ?_, rfl, by decide, by decide⟩
  · simp only [bestCandidatesUnsorted]
    exact filterMap_guard_eq _ _ _
  · simp only [initiativeCoverageData]
    exact filterMap_guard_eq _ _ _

/-- Counterexample to claim C2 as stated: under the spec's `trimLower` rule
the query `"Foo "` matches a sample labelled `initiative="foo"`, but both
projections reject that sample (level 3 passes the default `min_level=3`, so
the claim predicts a non-empty candidate list and a non-empty coverage
list). -/
theorem C2_trimlower_counterexample :
    trimLowerMatch ("Foo ") ("foo") = true ∧
    (bestSubmittersData ("Foo ") 3 demoFooLowerFams).candidates = [] ∧
    (initiativeCoverageData ("Foo ") ("") demoFooLowerFams).coverage_by_submitter =
      [] := by
  exact ⟨rfl, by decide, rfl⟩

/-- Claim C4: `find_best_submitters_for_initiative` keeps, among the samples
of family `proficiency_by_user_initiative` matching the requested initiative,
exactly those with `value >= min_level`, and returns them sorted in descending
order of value with ties kept in encounter order (stable); over matching
samples at levels `[2,3,4]` with `min_level=3` (the default) it returns the
level-4 and level-3 samples, in that order. -/
theorem C4_find_best_submitters :
    (∀ initiative min_level fams,
      bestCandidatesUnsorted initiative min_level fams =
        ((familySamples fams ("proficiency_by_user_initiative")).filter (fun s =>
            labelsGet s.labels ("initiative") == some (pyStripS initiative) &&
              s.value.geInt min_level)).map (fun s =>
          ⟨labelsGet s.labels ("submitter"), labelsGet s.labels ("initiative"),
           labelsGet s.labels ("epic_team"), s.value⟩)) ∧
    (∀ initiative min_level fams,
      (bestSubmittersData initiative min_level fams).candidates =
        (bestCandidatesUnsorted initiative min_level fams).mergeSort descByLevel) ∧
    (∀ initiative min_level fams,
      ((bestSubmittersData initiative min_level fams).candidates).Pairwise
        (fun a b => PVal.ble b.proficiency_level a.proficiency_level = true)) ∧
    (∀ initiative min_level fams,
      ((bestSubmittersData initiative min_level fams).candidates).Perm
        (bestCandidatesUnsorted initiative min_level fams)) ∧
    (∀ initiative min_level fams (v : PVal),
      ((bestSubmittersData initiative min_level fams).candidates).filter
          (fun r => r.proficiency_level == v) =
        (bestCandidatesUnsorted initiative min_level fams).filter
          (fun r => r.proficiency_level == v)) ∧
    (bestSubmittersData ("X") 3 demoLevelsFams).candidates =
      [⟨some ("carol"), some ("X"), some ("T"), .finite 4⟩,
       ⟨some ("bob"), some ("X"), some ("T"), .finite 3⟩] := by
  refine ⟨fun i lvl fams => ?_, fun i lvl fams => rfl,
    fun i lvl fams =>
      mergeSort_descBy_sorted (fun c : CandidateRow => c.proficiency_level) _,
    fun i lvl fams => List.mergeSort_perm _ _,
    fun i lvl fams v =>
      mergeSort_descBy_stable (fun c : CandidateRow => c.proficiency_level) _ v,
    by decide⟩
  simp only [bestCandidatesUnsorted]
  exact filterMap_guard_eq _ _ _

/-- Claim C5: `get_swarm_group_top_contributors` selects exactly the
`group_top_contributor` samples whose `group` label equals the requested group
byte-for-byte, sorts them descending by `activity_count` with stable ties, and
truncates to the requested limit (`l[:limit]`, default 5); for contributors
`[("a",5),("b",5),("c",3)]` and limit 2 the result is `[("a",5),("b",5)]`. -/
theorem C5_top_contributors :
    (∀ g fams,
      contributorsUnsorted g fams =
        ((familySamples fams ("group_top_contributor")).filter (fun s =>
            labelsGet s.labels ("group") == some g)).map (fun s =>
          ⟨labelsGet s.labels ("group"), labelsGet s.labels ("contributor"),
           s.value⟩)) ∧
    (∀ g lim fams,
      (topContributorsData g lim fams).top_contributors =
        pySliceTo lim ((contributorsUnsorted g fams).mergeSort descByActivity)) ∧
    (∀ (k : Nat) (l : List ContributorRow), pySliceTo (k : Int) l = l.take k) ∧
    (∀ g fams,
      ((contributorsUnsorted g fams).mergeSort descByActivity).Pairwise
        (fun a b => PVal.ble b.activity_count a.activity_count = true)) ∧
    (∀ g fams,
      ((contributorsUnsorted g fams).mergeSort descByActivity).Perm
        (contributorsUnsorted g fams)) ∧
    (∀ g fams (v : PVal),
      ((contributorsUnsorted g fams).mergeSort descByActivity).filter
          (fun r => r.activity_count == v) =
        (contributorsUnsorted g fams).filter (fun r => r.activity_count == v)) ∧
    (topContributorsData ("G") 2 demoContribFams).top_contributors =
      [⟨some ("G"), some ("a"), .finite 5⟩, ⟨some ("G"), some ("b"), .finite 5⟩] := by
  refine ⟨fun g fams => ?_, fun g lim fams => rfl,
    fun k l => pySliceTo_ofNat k l,
    fun g fams =>
      mergeSort_descBy_sorted (fun c : ContributorRow => c.activity_count) _,
    fun g fams => List.mergeSort_perm _ _,
    fun g fams v =>
      mergeSort_descBy_stable (fun c : ContributorRow => c.activity_count) _ v,
    by decide⟩
  simp only [contributorsUnsorted]
  exact filterMap_guard_eq _ _ _

/-- Claim C6: `get_submitter_skill_profile` selects the samples of the two
proficiency families whose `submitter` label equals the requested identity
byte-for-byte and emits the two unsorted lists in source order; on the
scenario exposition text with one `proficiency_by_user_initiative` sample for
`alice`, `by_initiative` is that single record and `by_epic` is empty. -/
theorem C6_skill_profile :
    (∀ submitter fams,
      skillProfileData submitter fams =
        ⟨submitter,
         ((familySamples fams ("proficiency_by_user_initiative")).filter (fun s =>
             labelsGet s.labels ("submitter") == some submitter)).map (fun s =>
           ⟨labelsGet s.labels ("initiative"), labelsGet s.labels ("epic_team"),
            s.value⟩),
         ((familySamples fams ("proficiency_by_user_epic")).filter (fun s =>
             labelsGet s.labels ("submitter") == some submitter)).map (fun s =>
           ⟨labelsGet s.labels ("epic"), labelsGet s.labels ("epic_team"),
            s.value⟩)⟩) ∧
    get_submitter_skill_profile ("alice") (.resp ⟨200, scenarioText, .ok .null⟩) =
      .success ⟨"alice", [⟨some ("Foo"), some ("T1"), .finite 3⟩], []⟩ := by
  refine ⟨fun sub fams => ?_, rfl⟩
  simp only [skillProfileData, filterMap_guard_eq]

/-- Claim C7: in the optional `epic_team` filter of `get_initiative_coverage`,
an empty filter value skips the constraint entirely (every sample passes, with
or without the label), while a non-empty value `X` never matches a sample
lacking the label — the sample contributes iff `epic_team == "" or
labels.get("epic_team") == X`. -/
theorem C7_optional_label_filter :
    (∀ initiative epic_team fams,
      (initiativeCoverageData initiative epic_team fams).coverage_by_submitter =
        ((familySamples fams ("initiative_coverage")).filter (fun s =>
            labelsGet s.labels ("initiative") == some (pyStripS initiative) &&
              (epic_team == "" ||
                labelsGet s.labels ("epic_team") == some epic_team))).map (fun s =>
          ⟨labelsGet s.labels ("submitter"), labelsGet s.labels ("initiative"),
           labelsGet s.labels ("epic_team"), s.value⟩)) ∧
    (∀ initiative epic_team fams,
      (initiativeCoverageData initiative epic_team fams).total_submitters_by_team =
        ((familySamples fams ("submitter_experience_by_initiative")).filter (fun s =>
            labelsGet s.labels ("initiative") == some (pyStripS initiative) &&
              (epic_team == "" ||
                labelsGet s.labels ("epic_team") == some epic_team))).foldl
          (fun d s => dictSetTeam d (labelsGet s.labels ("epic_team")) s.value) []) ∧
    (initiativeCoverageData ("I") ("") demoNoTeamFams).coverage_by_submitter =
      [⟨some ("u"), some ("I"), none, .finite 1⟩] ∧
    (initiativeCoverageData ("I") ("X") demoNoTeamFams).coverage_by_submitter =
      [] := by
  refine ⟨fun i et fams => ?_, fun i et fams => ?_, rfl, rfl⟩
  · simp only [initiativeCoverageData, coveragePass]
    exact filterMap_guard_eq _ _ _
  · simp only [initiativeCoverageData, coveragePass]
    exact (foldl_filter_eq _ _ _ _).symm

/-- Claim C8 (amended): `get_epic_expertise` computes `total_submitters` from
`submitter_experience_by_epic` as the value of the last sample (in document
order) whose `epic` label matches the effective epic — the requested epic,
with an empty request replaced by `"Unknown"` — and 0 when no sample matches;
and computes `submitter_levels` from `proficiency_by_user_epic` as the
matching samples sorted descending by proficiency level, stable on ties. -/
theorem C8_epic_expertise :
    (∀ ep fams,
      (epicExpertiseData ep fams).total_submitters =
        (((familySamples fams ("submitter_experience_by_epic")).reverse.find?
            (fun s => labelsGet s.labels ("epic") ==
              some (if ep == "" then "Unknown" else ep))).elim
          (PVal.finite 0) (fun s => s.value))) ∧
    (∀ target fams,
      epicLevelsUnsorted target fams =
        ((familySamples fams ("proficiency_by_user_epic")).filter (fun s =>
            labelsGet s.labels ("epic") == some target)).map (fun s =>
          ⟨labelsGet s.labels ("submitter"), labelsGet s.labels ("epic_team"),
           s.value⟩)) ∧
    (∀ ep fams,
      (epicExpertiseData ep fams).submitter_levels =
        (epicLevelsUnsorted (if ep == "" then "Unknown" else ep) fams).mergeSort
          descLevelRow) ∧
    (∀ target fams,
      ((epicLevelsUnsorted target fams).mergeSort descLevelRow).Pairwise
        (fun a b => PVal.ble b.proficiency_level a.proficiency_level = true)) ∧
    (∀ target fams,
      ((epicLevelsUnsorted target fams).mergeSort descLevelRow).Perm
        (epicLevelsUnsorted target fams)) ∧
    (∀ target fams (v : PVal),
      (((epicLevelsUnsorted target fams).mergeSort descLevelRow).filter
          (fun r => r.proficiency_level == v)) =
        (epicLevelsUnsorted target fams).filter
          (fun r => r.proficiency_level == v)) := by
  refine ⟨fun ep fams => ?_, fun target fams => ?_, fun ep fams => rfl,
    fun target fams =>
      mergeSort_descBy_sorted (fun c : LevelRow => c.proficiency_level) _,
    fun target fams => List.mergeSort_perm _ _,
    fun target fams v =>
      mergeSort_descBy_stable (fun c : LevelRow => c.proficiency_level) _ v⟩
  · simp only [epicExpertiseData]
    exact foldl_lastwins _ _ _ _
  · simp only [epicLevelsUnsorted]
    exact filterMap_guard_eq _ _ _

/-- Counterexample to claim C8 as stated: for the requested epic `""`, the
document's only `submitter_experience_by_epic` sample carries `epic=""` (so
under the claim the last sample matching the requested epic has value 7), yet
the code — which replaces an empty request by `"Unknown"` — returns 0. -/
theorem C8_empty_epic_counterexample :
    ((familySamples demoEmptyEpicFams ("submitter_experience_by_epic")).filter
        (fun s => labelsGet s.labels ("epic") == some (""))).map
      (fun s => s.value) = [PVal.finite 7] ∧
    (epicExpertiseData ("") demoEmptyEpicFams).total_submitters = PVal.finite 0 ∧
    PVal.finite 0 ≠ PVal.finite 7 := by
  exact ⟨rfl, rfl, by decide⟩

/-- Claim C3 (amended): for every metrics projection tool, a failed fetch of
the exposition text yields `ok=false` with a message identifying the upstream
fetch; once the text is obtained, if it parses the result is `ok=true` with
the pure projection as data (an empty document yields empty lists / null
fields, not an error); if the parser raises on malformed text, the result is
`ok=false` with a tool-specific parse-error message. -/
theorem C3_projection_error_handling :
    ((∀ sub out e, fetchMetricsText out = .error e →
        get_submitter_skill_profile sub out =
          .failure ("Failed to fetch Skill Matrix metrics: " ++ e)) ∧
      (∀ sub out t e, fetchMetricsText out = .ok t →
        text_string_to_metric_families t = .error e →
        get_submitter_skill_profile sub out =
          .failure ("Error parsing Skill Matrix metrics: " ++ e)) ∧
      (∀ sub out t fams, fetchMetricsText out = .ok t →
        text_string_to_metric_families t = .ok fams →
        get_submitter_skill_profile sub out =
          .success (skillProfileData sub fams))) ∧
    ((∀ i et out e, fetchMetricsText out = .error e →
        get_initiative_coverage i et out =
          .failure ("Failed to fetch Skill Matrix metrics: " ++ e)) ∧
      (∀ i et out t e, fetchMetricsText out = .ok t →
        text_string_to_metric_families t = .error e →
        get_initiative_coverage i et out =
          .failure ("Error parsing Skill Matrix initiative metrics: " ++ e)) ∧
      (∀ i et out t fams, fetchMetricsText out = .ok t →
        text_string_to_metric_families t = .ok fams →
        get_initiative_coverage i et out =
          .success (initiativeCoverageData i et fams))) ∧
    ((∀ i lvl out e, fetchMetricsText out = .error e →
        find_best_submitters_for_initiative i lvl out =
          .failure ("Failed to fetch Skill Matrix metrics: " ++ e)) ∧
      (∀ i lvl out t e, fetchMetricsText out = .ok t →
        text_string_to_metric_families t = .error e →
        find_best_submitters_for_initiative i lvl out =
          .failure ("Error parsing proficiency metrics: " ++ e)) ∧
      (∀ i lvl out t fams, fetchMetricsText out = .ok t →
        text_string_to_metric_families t = .ok fams →
        find_best_submitters_for_initiative i lvl out =
          .success (bestSubmittersData i lvl fams))) ∧
    ((∀ ep out e, fetchMetricsText out = .error e →
        get_epic_expertise ep out =
          .failure ("Failed to fetch Skill Matrix metrics: " ++ e)) ∧
      (∀ ep out t e, fetchMetricsText out = .ok t →
        text_string_to_metric_families t = .error e →
        get_epic_expertise ep out =
          .failure ("Error parsing epic expertise metrics: " ++ e)) ∧
      (∀ ep out t fams, fetchMetricsText out = .ok t →
        text_string_to_metric_families t = .ok fams →
        get_epic_expertise ep out = .success (epicExpertiseData ep fams))) ∧
    ((∀ g out e, fetchMetricsText out = .error e →
        get_swarm_group_summary g out =
          .failure ("Failed to fetch Swarm metrics: " ++ e)) ∧
      (∀ g out t e, fetchMetricsText out = .ok t →
        text_string_to_metric_families t = .error e →
        get_swarm_group_summary g out =
          .failure ("Error parsing Swarm metrics: " ++ e)) ∧
      (∀ g out t fams, fetchMetricsText out = .ok t →
        text_string_to_metric_families t = .ok fams →
        get_swarm_group_summary g out = .success (groupSummaryData g fams))) ∧
    ((∀ g lim out e, fetchMetricsText out = .error e →
        get_swarm_group_top_contributors g lim out =
          .failure ("Failed to fetch Swarm metrics: " ++ e)) ∧
      (∀ g lim out t e, fetchMetricsText out = .ok t →
        text_string_to_metric_families t = .error e →
        get_swarm_group_top_contributors g lim out =
          .failure ("Error parsing top contributors: " ++ e)) ∧
      (∀ g lim out t fams, fetchMetricsText out = .ok t →
        text_string_to_metric_families t = .ok fams →
        get_swarm_group_top_contributors g lim out =
          .success (topContributorsData g lim fams))) ∧
    ((∀ g out e, fetchMetricsText out = .error e →
        get_swarm_group_daily_snapshot g out =
          .failure ("Failed to fetch Swarm metrics: " ++ e)) ∧
      (∀ g out t e, fetchMetricsText out = .ok t →
        text_string_to_metric_families t = .error e →
        get_swarm_group_daily_snapshot g out =
          .failure ("Error parsing Swarm daily metrics: " ++ e)) ∧
      (∀ g out t fams, fetchMetricsText out = .ok t →
        text_string_to_metric_families t = .ok fams →
        get_swarm_group_daily_snapshot g out =
          .success (dailySnapshotData g fams))) ∧
    ((∀ sub, skillProfileData sub [] = ⟨sub, [], []⟩) ∧
      (∀ i et, initiativeCoverageData i et [] = ⟨pyStripS i, [], []⟩) ∧
      (∀ i lvl, bestSubmittersData i lvl [] = ⟨pyStripS i, lvl, []⟩) ∧
      (∀ ep, epicExpertiseData ep [] =
        ⟨if ep == "" then "Unknown" else ep, .finite 0, []⟩) ∧
      (∀ g, groupSummaryData g [] = emptyGroupSummary g) ∧
      (∀ g lim, topContributorsData g lim [] = ⟨g, pySliceTo lim []⟩) ∧
      (∀ g, dailySnapshotData g [] = emptyDailySnapshot g)) := by
  refine ⟨⟨fun _ o _ hf => by simp only [get_submitter_skill_profile, hf],
      fun _ o _ _ hf hp => by simp only [get_submitter_skill_profile, hf, hp],
      fun _ o _ _ hf hp => by simp only [get_submitter_skill_profile, hf, hp]⟩,
    ⟨fun _ _ o _ hf => by simp only [get_initiative_coverage, hf],
      fun _ _ o _ _ hf hp => by simp only [get_initiative_coverage, hf, hp],
      fun _ _ o _ _ hf hp => by simp only [get_initiative_coverage, hf, hp]⟩,
    ⟨fun _ _ o _ hf => by simp only [find_best_submitters_for_initiative, hf],
      fun _ _ o _ _ hf hp => by
        simp only [find_best_submitters_for_initiative, hf, hp],
      fun _ _ o _ _ hf hp => by
        simp only [find_best_submitters_for_initiative, hf, hp]⟩,
    ⟨fun _ o _ hf => by simp only [get_epic_expertise, hf],
      fun _ o _ _ hf hp => by simp only [get_epic_expertise, hf, hp],
      fun _ o _ _ hf hp => by simp only [get_epic_expertise, hf, hp]⟩,
    ⟨fun _ o _ hf => by simp only [get_swarm_group_summary, hf],
      fun _ o _ _ hf hp => by simp only [get_swarm_group_summary, hf, hp],
      fun _ o _ _ hf hp => by simp only [get_swarm_group_summary, hf, hp]⟩,
    ⟨fun _ _ o _ hf => by simp only [get_swarm_group_top_contributors, hf],
      fun _ _ o _ _ hf hp => by
        simp only [get_swarm_group_top_contributors, hf, hp],
      fun _ _ o _ _ hf hp => by
        simp only [get_swarm_group_top_contributors, hf, hp]⟩,
    ⟨fun _ o _ hf => by simp only [get_swarm_group_daily_snapshot, hf],
      fun _ o _ _ hf hp => by simp only [get_swarm_group_daily_snapshot, hf, hp],
      fun _ o _ _ hf hp => by simp only [get_swarm_group_daily_snapshot, hf, hp]⟩,
    fun _ => rfl, fun _ _ => rfl, fun _ _ => rfl, fun _ => rfl, fun _ => rfl,
    fun _ _ => rfl, fun _ => rfl⟩

/-- Witness for C3: concrete instances of the three behaviours — a fetch
exception, a parse success over an empty document, and the witnesses are
produced by the theorem itself. -/
theorem C3_projection_error_handling_witness :
    get_submitter_skill_profile ("alice") (.exn ("boom")) =
      .failure ("Failed to fetch Skill Matrix metrics: boom") ∧
    get_submitter_skill_profile ("alice") (.resp ⟨200, "", .ok .null⟩) =
      .success (skillProfileData ("alice") []) ∧
    get_swarm_group_summary ("G") garbageOutcome =
      .failure ("Error parsing Swarm metrics: substring not found") := by
  refine ⟨?_, ?_, ?_⟩
  · exact C3_projection_error_handling.1.1 ("alice") (.exn ("boom")) ("boom") rfl
  · exact C3_projection_error_handling.1.2.2 ("alice") (.resp ⟨200, "", .ok .null⟩)
      ("") [] rfl rfl
  · exact C3_projection_error_handling.2.2.2.2.1.2.1 ("G") garbageOutcome
      ("garbage") ("substring not found") rfl rfl

/-- Counterexample to claim C3 as stated: on the text `"garbage"` the fetch
succeeds (the text is obtained) but the parser raises, and the projection
returns an error envelope — not `ok=true`. -/
theorem C3_parse_failure_counterexample :
    fetchMetricsText garbageOutcome = .ok ("garbage") ∧
    (get_submitter_skill_profile ("alice") garbageOutcome).ok = false ∧
    (get_submitter_skill_profile ("alice") garbageOutcome).error =
      some ("Error parsing Skill Matrix metrics: substring not found") := by
  exact ⟨rfl, rfl, rfl⟩

/-- Claim C9 (amended): for the Perforce stream/changelist and sprint/task
lookup tools, an upstream 2xx response returns the decoded JSON body verbatim
as `data`, upstream 404 yields `ok=false` with a domain-specific not-found
message, and any other exception (request failure, non-2xx status, decode
failure) yields `ok=false` with a generically wrapped message — EXCEPT
`get_user_sprint_hours`, which on 2xx returns not the body but a fixed
ten-field summary extracted from it (missing keys become null). -/
theorem C9_proxy_passthrough :
    (∀ stream (t : String) (j : Except String Json) (v : Json) (e : String),
      get_p4_stream_summary stream (.exn e) =
          .failure ("stream-summary call failed: " ++ e) ∧
        get_p4_stream_summary stream (.resp ⟨404, t, j⟩) =
          .failure ("Stream not found in P4StreamDiff: " ++ stream) ∧
        get_p4_stream_summary stream (.resp ⟨200, t, .ok v⟩) = .success v ∧
        get_p4_stream_summary stream (.resp ⟨500, t, j⟩) =
          .failure ("stream-summary call failed: " ++ httpStatusErrMsg 500)) ∧
    (∀ stream cls (t : String) (j : Except String Json) (v : Json) (e : String),
      check_stream_changelists stream cls (.exn e) =
          .failure ("stream-changelists-membership call failed: " ++ e) ∧
        check_stream_changelists stream cls (.resp ⟨404, t, j⟩) =
          .failure ("Stream not found in P4StreamDiff: " ++ stream) ∧
        check_stream_changelists stream cls (.resp ⟨200, t, .ok v⟩) = .success v ∧
        check_stream_changelists stream cls (.resp ⟨500, t, j⟩) =
          .failure ("stream-changelists-membership call failed: " ++
            httpStatusErrMsg 500)) ∧
    (∀ stream (t : String) (j : Except String Json) (v : Json) (e : String),
      get_stream_changelists stream (.exn e) =
          .failure ("stream-changelists call failed: " ++ e) ∧
        get_stream_changelists stream (.resp ⟨404, t, j⟩) =
          .failure ("Stream not found in P4StreamDiff: " ++ stream) ∧
        get_stream_changelists stream (.resp ⟨200, t, .ok v⟩) = .success v ∧
        get_stream_changelists stream (.resp ⟨500, t, j⟩) =
          .failure ("stream-changelists call failed: " ++ httpStatusErrMsg 500)) ∧
    (∀ stream (t : String) (j : Except String Json) (v : Json) (e : String),
      get_stream_files stream (.exn e) =
          .failure ("stream-files call failed: " ++ e) ∧
        get_stream_files stream (.resp ⟨404, t, j⟩) =
          .failure ("Stream not found in P4StreamDiff: " ++ stream) ∧
        get_stream_files stream (.resp ⟨200, t, .ok v⟩) = .success v ∧
        get_stream_files stream (.resp ⟨500, t, j⟩) =
          .failure ("stream-files call failed: " ++ httpStatusErrMsg 500)) ∧
    (∀ cl (t : String) (j : Except String Json) (v : Json) (e : String),
      get_changelist_details cl (.exn e) =
          .failure ("changelist-details call failed: " ++ e) ∧
        get_changelist_details cl (.resp ⟨404, t, j⟩) =
          .failure ("Changelist not found in P4StreamDiff: " ++ toString cl) ∧
        get_changelist_details cl (.resp ⟨200, t, .ok v⟩) = .success v ∧
        get_changelist_details cl (.resp ⟨500, t, j⟩) =
          .failure ("changelist-details call failed: " ++ httpStatusErrMsg 500)) ∧
    (∀ cls (t : String) (j : Except String Json) (v : Json) (e : String),
      find_changelist_streams cls (.exn e) =
          .failure ("changelists-streams call failed: " ++ e) ∧
        find_changelist_streams cls (.resp ⟨404, t, j⟩) =
          .failure ("Endpoint /api/changelists-streams/ not found on P4Diff") ∧
        find_changelist_streams cls (.resp ⟨200, t, .ok v⟩) = .success v ∧
        find_changelist_streams cls (.resp ⟨500, t, j⟩) =
          .failure ("changelists-streams call failed: " ++ httpStatusErrMsg 500)) ∧
    (∀ sn (t : String) (j : Except String Json) (v : Json) (e : String),
      get_sprint_metrics sn (.exn e) =
          .failure ("SprintInsights call failed: " ++ e) ∧
        get_sprint_metrics sn (.resp ⟨404, t, j⟩) =
          .failure ("Sprint not found in SprintInsights: " ++ sn) ∧
        get_sprint_metrics sn (.resp ⟨200, t, .ok v⟩) = .success v ∧
        get_sprint_metrics sn (.resp ⟨500, t, j⟩) =
          .failure ("SprintInsights call failed: " ++ httpStatusErrMsg 500)) ∧
    (∀ (t : String) (j : Except String Json) (v : Json) (e : String),
      get_active_jira_sprints (.exn e) =
          .failure ("active-sprints call failed: " ++ e) ∧
        get_active_jira_sprints (.resp ⟨404, t, j⟩) =
          .failure ("active-sprints endpoint not found on Jira tasks service") ∧
        get_active_jira_sprints (.resp ⟨200, t, .ok v⟩) = .success v ∧
        get_active_jira_sprints (.resp ⟨500, t, j⟩) =
          .failure ("active-sprints call failed: " ++ httpStatusErrMsg 500)) ∧
    (∀ sid sf (t : String) (j : Except String Json) (v : Json) (e : String),
      get_jira_sprint_tasks sid sf (.exn e) =
          .failure ("sprint-tasks call failed: " ++ e) ∧
        get_jira_sprint_tasks sid sf (.resp ⟨404, t, j⟩) =
          .failure ("Sprint " ++ sid ++ " not found in Jira tasks service") ∧
        get_jira_sprint_tasks sid sf (.resp ⟨200, t, .ok v⟩) = .success v ∧
        get_jira_sprint_tasks sid sf (.resp ⟨500, t, j⟩) =
          .failure ("sprint-tasks call failed: " ++ httpStatusErrMsg 500)) ∧
    (∀ sid un sf (t : String) (j : Except String Json) (v : Json) (e : String),
      get_user_sprint_tasks sid un sf (.exn e) =
          .failure ("sprint-user-tasks call failed: " ++ e) ∧
        get_user_sprint_tasks sid un sf (.resp ⟨404, t, j⟩) =
          .failure ("Sprint " ++ sid ++ " or user " ++ un ++
            " not found in Jira tasks service") ∧
        get_user_sprint_tasks sid un sf (.resp ⟨200, t, .ok v⟩) = .success v ∧
        get_user_sprint_tasks sid un sf (.resp ⟨500, t, j⟩) =
          .failure ("sprint-user-tasks call failed: " ++ httpStatusErrMsg 500)) ∧
    (∀ q sid un sf (t : String) (j : Except String Json) (v : Json) (e : String),
      search_jira_tasks q sid un sf (.exn e) =
          .failure ("search-tasks call failed: " ++ e) ∧
        search_jira_tasks q sid un sf (.resp ⟨404, t, j⟩) =
          .failure ("search-tasks endpoint not found on Jira tasks service") ∧
        search_jira_tasks q sid un sf (.resp ⟨200, t, .ok v⟩) = .success v ∧
        search_jira_tasks q sid un sf (.resp ⟨500, t, j⟩) =
          .failure ("search-tasks call failed: " ++ httpStatusErrMsg 500)) ∧
    (∀ sid un (t : String) (j : Except String Json)
        (fields : List (String × Json)) (e : String),
      get_user_sprint_hours sid un (.exn e) =
          .failure ("sprint-user-tasks (hours view) call failed: " ++ e) ∧
        get_user_sprint_hours sid un (.resp ⟨404, t, j⟩) =
          .failure ("Sprint " ++ sid ++ " or user " ++ un ++
            " not found in Jira tasks service") ∧
        get_user_sprint_hours sid un (.resp ⟨200, t, .ok (.obj fields)⟩) =
          .success (sprintHoursSummary (.obj fields)) ∧
        get_user_sprint_hours sid un (.resp ⟨200, t, .ok (.arr [])⟩) =
          .failure ("sprint-user-tasks (hours view) call failed: " ++ attrErrMsg) ∧
        get_user_sprint_hours sid un (.resp ⟨500, t, j⟩) =
          .failure ("sprint-user-tasks (hours view) call failed: " ++
            httpStatusErrMsg 500)) := by
  exact ⟨fun _ _ _ _ _ => ⟨rfl, rfl, rfl, rfl⟩,
    fun _ _ _ _ _ _ => ⟨rfl, rfl, rfl, rfl⟩,
    fun _ _ _ _ _ => ⟨rfl, rfl, rfl, rfl⟩,
    fun _ _ _ _ _ => ⟨rfl, rfl, rfl, rfl⟩,
    fun _ _ _ _ _ => ⟨rfl, rfl, rfl, rfl⟩,
    fun _ _ _ _ _ => ⟨rfl, rfl, rfl, rfl⟩,
    fun _ _ _ _ _ => ⟨rfl, rfl, rfl, rfl⟩,
    fun _ _ _ _ => ⟨rfl, rfl, rfl, rfl⟩,
    fun _ _ _ _ _ _ => ⟨rfl, rfl, rfl, rfl⟩,
    fun _ _ _ _ _ _ _ => ⟨rfl, rfl, rfl, rfl⟩,
    fun _ _ _ _ _ _ _ _ => ⟨rfl, rfl, rfl, rfl⟩,
    fun _ _ _ _ _ _ => ⟨rfl, rfl, rfl, rfl, rfl⟩⟩

/-- Counterexample to claim C9 as stated: `get_user_sprint_hours` is one of
the sprint/task lookup tools, yet on a 2xx JSON body `{"foo": 1}` it returns
`ok=true` with data different from the body (a fixed summary dict), so the
body is not passed through verbatim. -/
theorem C9_hours_not_verbatim_counterexample :
    (get_user_sprint_hours ("S1") ("u1") hoursCexOutcome).ok = true ∧
    (get_user_sprint_hours ("S1") ("u1") hoursCexOutcome).data ≠
      some hoursCexBody := by
  refine ⟨rfl, ?_⟩
  intro h
  have hd : (get_user_sprint_hours ("S1") ("u1") hoursCexOutcome).data =
      some (sprintHoursSummary hoursCexBody) := rfl
  rw [hd] at h
  simp [sprintHoursSummary, hoursCexBody, jsonGet] at h

end MCPGateway
